import Mathlib

/-!
Shallow embedding of the subscription-reconciliation core of the billing
backend (services/subscriptionService.js and controllers/stripeController.js).

Modelling conventions:
* Provider timestamps are Unix seconds, modelled as `Nat` (the provider
  reports non-negative UTC seconds).  Stored timestamps are JS `Date`
  values, modelled by their epoch-millisecond value as `Int` (the fixed
  minus-three-hour shift can go below the epoch).
* JS `addDays(d, 1)` (`setDate(getDate() + 1)`) under the service's UTC
  process timezone adds exactly 86400000 ms; it is modelled as `+ dayMs`.
* Nullable JS values are `Option`.  The source's `??` chains are `<|>`;
  JS truthiness tests on numbers additionally treat `0` as absent and
  are modelled with an explicit `= 0` test where the source uses a
  truthiness check (ternary) rather than `??`.  Identifier strings and
  metadata values are assumed non-empty, so string truthiness coincides
  with presence.
* The two external collaborators are oracles in `StripeEnv`:
  `retrieveSub` is `stripe.subscriptions.retrieve` (`none` = the call
  threw), `customerUserId` is the outcome of `getUserIdFromStripeCustomer`
  (customer metadata `userId`/`supabase_user_id`, `none` also covers an
  API error), `customerMetaUserId` is the webhook controller's own
  `customer.metadata?.userId` read.  `nowSec`/`nowMs` model `Date.now()`.
* The datastore is the explicit state `Db`: the `subscriptions` and
  `payments` tables as lists of rows plus a fresh-id counter.  Rows
  written by this service always carry a `start_date`, so that column is
  modelled as non-null (the source's guard for a null `start_date` in the
  rollover step is unreachable here).
-/

/-- One item of `subscription.items.data`. -/
structure SubItem where
  priceNickname : Option String
  priceInterval : Option String
  current_period_start : Option Nat
  current_period_end : Option Nat
deriving DecidableEq, Repr

/-- The provider subscription object (the fields this service reads). -/
structure StripeSub where
  id : String
  customer : String
  status : Option String
  metadataUserId : Option String
  metadataSupabaseUserId : Option String
  items : List SubItem
  current_period_start : Option Nat
  current_period_end : Option Nat
  start_date : Option Nat
  trial_end : Option Nat
  canceled_at : Option Nat
deriving DecidableEq, Repr

/-- The provider invoice object (the fields `recordPayment` reads). -/
structure StripeInvoice where
  id : String
  customer : String
  payment_intent : Option String
  status : String
  amount_paid : Int
  created : Nat
  subscription : Option String
deriving DecidableEq, Repr

/-- A row of the local `subscriptions` table. -/
structure SubRow where
  id : Nat
  user_id : String
  stripe_customer_id : String
  stripe_subscription_id : String
  status : String
  plan_name : String
  start_date : Int
  end_date : Option Int
  canceled_date : Option Int
deriving DecidableEq, Repr

/-- A row of the local `payments` table. -/
structure PayRow where
  id : Nat
  user_id : String
  subscription_id : Option Nat
  amount : Rat
  stripe_payment_id : String
  payment_status : String
  transaction_date : Int
deriving DecidableEq, Repr

/-- The datastore state: both tables plus a fresh primary-key counter. -/
structure Db where
  subs : List SubRow
  payments : List PayRow
  nextId : Nat
deriving DecidableEq, Repr

/-- External collaborators (provider SDK calls and the clock). -/
structure StripeEnv where
  retrieveSub : String → Option StripeSub
  customerUserId : String → Option String
  customerMetaUserId : String → Option String
  nowSec : Nat
  nowMs : Int

/-- `UTC_MINUS_3_OFFSET_SECONDS = 3 * 60 * 60`. -/
def utcMinus3OffsetSeconds : Nat := 3 * 60 * 60

/-- One JS day in milliseconds (`addDays(d, 1)` under a UTC timezone). -/
def dayMs : Int := 86400000

/-- `toUtcMinus3Date`: shift provider UTC seconds by minus three hours and
turn them into a `Date` (epoch milliseconds). -/
def utcMinus3Ms (s : Nat) : Int :=
  ((s : Int) - (utcMinus3OffsetSeconds : Int)) * 1000

/-- `findUserByStripeCustomerId`: first `subscriptions` row with the given
provider customer id yields its `user_id`. -/
def findUserByStripeCustomerId (db : Db) (c : String) : Option String :=
  (db.subs.find? fun r => r.stripe_customer_id == c).map (·.user_id)

/-- `upsertSubscription` step 1: re-fetch the full subscription from the
provider; on failure fall back to the webhook payload. -/
def effectiveSub (env : StripeEnv) (payload : StripeSub) : StripeSub :=
  (env.retrieveSub payload.id).getD payload

/-- `upsertSubscription` user resolution: explicit argument, then the
subscription's own metadata, then customer metadata, then the local table. -/
def resolveUpsertUser (env : StripeEnv) (full : StripeSub) (userId : Option String)
    (db : Db) : Option String :=
  userId <|> full.metadataUserId <|> full.metadataSupabaseUserId <|>
    env.customerUserId full.customer <|> findUserByStripeCustomerId db full.customer

/-- Plan-name derivation: price nickname, else recurring interval, else
the literal default `monthly`. -/
def planNameOf (full : StripeSub) : String :=
  match full.items.head? with
  | none => "monthly"
  | some it =>
    match it.priceNickname with
    | some n => n
    | none => it.priceInterval.getD "monthly"

/-- `periodStartSec`: `current_period_start ?? items[0]?.current_period_start
?? start_date ?? Math.floor(Date.now() / 1000)`. -/
def derivedStartSec (env : StripeEnv) (full : StripeSub) : Nat :=
  (full.current_period_start <|> full.items.head?.bind (·.current_period_start) <|>
    full.start_date).getD env.nowSec

/-- `periodEndSec`: `current_period_end ?? items[0]?.current_period_end
?? trial_end ?? null`. -/
def derivedEndSec (full : StripeSub) : Option Nat :=
  full.current_period_end <|> full.items.head?.bind (·.current_period_end) <|>
    full.trial_end

/-- The stored `end_date`: the shifted derived end, floored to
`start_date + 1 day` when it is missing (including the `0`-seconds value,
falsy in the source's ternary) or not strictly after the start. -/
def finalEndMs (env : StripeEnv) (full : StripeSub) : Int :=
  let bs := utcMinus3Ms (derivedStartSec env full)
  match derivedEndSec full with
  | none => bs + dayMs
  | some e =>
    if e = 0 then bs + dayMs
    else if utcMinus3Ms e ≤ bs then bs + dayMs
    else utcMinus3Ms e

/-- Maximum-`start_date` element of a list of rows (`order by start_date
desc limit 1`); ties keep the earlier row. -/
def pickMaxStart : List SubRow → Option SubRow
  | [] => none
  | r :: rs =>
    match pickMaxStart rs with
    | none => some r
    | some b => if r.start_date < b.start_date then some b else some r

/-- The user's most recent `active` row (`eq user_id, eq status active,
order by start_date desc, limit 1`). -/
def mostRecentActive (db : Db) (uid : String) : Option SubRow :=
  pickMaxStart (db.subs.filter fun r => r.user_id == uid && r.status == "active")

/-- The most recent `active` row for a provider subscription id (the
cancellation path's lookup). -/
def mostRecentActiveBySub (db : Db) (sid : String) : Option SubRow :=
  pickMaxStart
    (db.subs.filter fun r => r.stripe_subscription_id == sid && r.status == "active")

/-- The update applied to the prior active row `a`: status `completed`,
`end_date` fixed to its own stored end, else its start plus one day. -/
def completeRow (a : SubRow) (r : SubRow) : SubRow :=
  if r.id = a.id then
    { r with status := "completed", end_date := some (a.end_date.getD (a.start_date + dayMs)) }
  else r

/-- The rollover step of `upsertSubscription`: if the user has an active
row, mark it `completed` (the source performs this unconditionally). -/
def markActive (db : Db) (uid : String) : Db :=
  match mostRecentActive db uid with
  | none => db
  | some a => { db with subs := db.subs.map (completeRow a) }

/-- The duplicate-period guard's predicate: same provider subscription id
and the exact same `start_date`. -/
def pairPred (sid : String) (bs : Int) (r : SubRow) : Bool :=
  r.stripe_subscription_id == sid && r.start_date == bs

/-- The row `upsertSubscription` inserts for a new period. -/
def newSubRow (full : StripeSub) (uid : String) (bs fe : Int) (nid : Nat) : SubRow :=
  { id := nid
    user_id := uid
    stripe_customer_id := full.customer
    stripe_subscription_id := full.id
    status := full.status.getD "active"
    plan_name := planNameOf full
    start_date := bs
    end_date := some fe
    canceled_date := none }

/-- `upsertSubscription`: re-fetch, resolve the user (abort with no write
on failure), derive the period, unconditionally complete the user's prior
active row, then insert a new row unless one already exists for
(subscription id, start_date), in which case that row is reused. -/
def upsertSubscription (env : StripeEnv) (payload : StripeSub) (userId : Option String)
    (db : Db) : Option SubRow × Db :=
  let full := effectiveSub env payload
  match resolveUpsertUser env full userId db with
  | none => (none, db)
  | some uid =>
    let bs := utcMinus3Ms (derivedStartSec env full)
    let fe := finalEndMs env full
    let db1 := markActive db uid
    match db1.subs.find? (pairPred full.id bs) with
    | some dup => (some dup, db1)
    | none =>
      let nr := newSubRow full uid bs fe db1.nextId
      (some nr, { db1 with subs := db1.subs ++ [nr], nextId := db1.nextId + 1 })

/-- Cancellation-path user resolution: explicit argument, then customer
metadata, then the local table (no subscription-metadata step). -/
def cancelResolveUser (env : StripeEnv) (full : StripeSub) (userId : Option String)
    (db : Db) : Option String :=
  userId <|> env.customerUserId full.customer <|> findUserByStripeCustomerId db full.customer

/-- `canceledDate`: the provider's cancellation timestamp (truthy), else
now.  The cancellation path stores raw epoch milliseconds, unshifted. -/
def cancelCanceledMs (env : StripeEnv) (full : StripeSub) : Int :=
  match full.canceled_at with
  | none => env.nowMs
  | some c => if c = 0 then env.nowMs else (c : Int) * 1000

/-- Cancellation `end_date`: the provider's `current_period_end` (truthy)
if present, else the cancellation date. -/
def cancelEndMs (env : StripeEnv) (full : StripeSub) : Int :=
  match full.current_period_end with
  | none => cancelCanceledMs env full
  | some e => if e = 0 then cancelCanceledMs env full else (e : Int) * 1000

/-- `cancelSubscriptionSB`: re-fetch (abort on failure), resolve the user
(abort on failure), then update only the most recent `active` row for the
provider subscription id to `canceled`; a missing row is a no-op `null`. -/
def cancelSubscriptionSB (env : StripeEnv) (sid : String) (userId : Option String)
    (db : Db) : Option SubRow × Db :=
  match env.retrieveSub sid with
  | none => (none, db)
  | some full =>
    match cancelResolveUser env full userId db with
    | none => (none, db)
    | some _ =>
      let cd := cancelCanceledMs env full
      let ed := cancelEndMs env full
      match mostRecentActiveBySub db sid with
      | none => (none, db)
      | some a =>
        (some { a with status := "canceled", canceled_date := some cd, end_date := some ed },
          { db with subs := db.subs.map fun r =>
              if r.id = a.id then
                { r with status := "canceled", canceled_date := some cd, end_date := some ed }
              else r })

/-- `recordPayment` user resolution: customer metadata then the local
table. -/
def recordResolveUser (env : StripeEnv) (inv : StripeInvoice) (db : Db) : Option String :=
  env.customerUserId inv.customer <|> findUserByStripeCustomerId db inv.customer

/-- Invoice-status classification: `paid` to `completed`, `open` to
`pending`, `uncollectible`/`void` to `failed`, default `pending`. -/
def paymentStatusFor (s : String) : String :=
  if s = "paid" then "completed"
  else if s = "open" then "pending"
  else if s = "uncollectible" ∨ s = "void" then "failed"
  else "pending"

/-- The payment row `recordPayment` builds from an invoice. -/
def newPayRow (inv : StripeInvoice) (uid : String) (subscriptionId : Option Nat)
    (nid : Nat) : PayRow :=
  { id := nid
    user_id := uid
    subscription_id := subscriptionId
    amount := (inv.amount_paid : Rat) / 100
    stripe_payment_id := inv.payment_intent.getD inv.id
    payment_status := paymentStatusFor inv.status
    transaction_date := (inv.created : Int) * 1000 }

/-- `recordPayment`: resolve the user (abort with no write on failure) and
always insert a fresh payment row, never update. -/
def recordPayment (env : StripeEnv) (inv : StripeInvoice) (subscriptionId : Option Nat)
    (db : Db) : Option PayRow × Db :=
  match recordResolveUser env inv db with
  | none => (none, db)
  | some uid =>
    let row := newPayRow inv uid subscriptionId db.nextId
    (some row, { db with payments := db.payments ++ [row], nextId := db.nextId + 1 })

/-- The payload carried by a webhook event envelope (`event.data.object`). -/
inductive EventObject where
  | sub (s : StripeSub)
  | inv (i : StripeInvoice)
  | other
deriving Repr

/-- A verified webhook event envelope. -/
structure StripeEvent where
  type : String
  obj : EventObject
deriving Repr

/-- The webhook endpoint's reply: HTTP 400 on signature failure, else the
success acknowledgment body. -/
inductive WebhookResponse where
  | badRequest
  | received
deriving DecidableEq, Repr

/-- The event types the dispatcher's switch recognizes. -/
def handledTypes : List String :=
  ["checkout.session.completed", "customer.subscription.created",
   "customer.subscription.updated", "customer.subscription.deleted",
   "invoice.payment_succeeded", "invoice.payment_failed"]

/-- The dispatcher's switch on event type (`handleWebhook`'s body): routes
to the reconciler or the payment recorder; the `checkout.session.completed`
branch only logs, and unrecognized types fall through to the default. -/
def dispatchEvent (env : StripeEnv) (ev : StripeEvent) (db : Db) : Db :=
  if ev.type = "checkout.session.completed" then db
  else if ev.type = "customer.subscription.created" then
    match ev.obj with
    | .sub s => (upsertSubscription env s (env.customerMetaUserId s.customer) db).2
    | _ => db
  else if ev.type = "customer.subscription.updated" then
    match ev.obj with
    | .sub s => (upsertSubscription env s none db).2
    | _ => db
  else if ev.type = "customer.subscription.deleted" then
    match ev.obj with
    | .sub s => (upsertSubscription env s none db).2
    | _ => db
  else if ev.type = "invoice.payment_succeeded" then
    match ev.obj with
    | .inv i =>
      let db1 := (recordPayment env i none db).2
      match i.subscription with
      | none => db1
      | some sid =>
        match env.retrieveSub sid with
        | none => db1
        | some s => (upsertSubscription env s none db1).2
    | _ => db
  else if ev.type = "invoice.payment_failed" then
    match ev.obj with
    | .inv i => (recordPayment env i none db).2
    | _ => db
  else db

/-- The webhook endpoint.  `verified` is the outcome of the provider SDK's
signature verification (`none` = it threw).  `branch` is the per-event
internal work, its `Except` component a possible thrown persistence error;
the handler's try/catch swallows that error and always acknowledges, so
only the `branch`'s state component survives.  The real branch body is
`stripeDispatch`. -/
def handleWebhook (verified : Option StripeEvent)
    (branch : StripeEvent → Db → Except String Unit × Db) (db : Db) :
    WebhookResponse × Db :=
  match verified with
  | none => (.badRequest, db)
  | some ev => (.received, (branch ev db).2)

/-- The concrete branch body: the dispatcher over the embedded services
(which model persistence as always succeeding). -/
def stripeDispatch (env : StripeEnv) (ev : StripeEvent) (db : Db) :
    Except String Unit × Db :=
  (Except.ok (), dispatchEvent env ev db)

/-! ### Basic facts about the embedded operations -/

theorem pickMaxStart_mem : ∀ {l : List SubRow} {a : SubRow}, pickMaxStart l = some a → a ∈ l := by
  intro l
  induction l with
  | nil => intro a h; simp [pickMaxStart] at h
  | cons r rs ih =>
    intro a h
    cases hrs : pickMaxStart rs with
    | none =>
      simp only [pickMaxStart, hrs, Option.some.injEq] at h
      cases h
      exact List.mem_cons_self r rs
    | some b =>
      simp only [pickMaxStart, hrs] at h
      split at h
      · cases h
        exact List.mem_cons_of_mem r (ih hrs)
      · cases h
        exact List.mem_cons_self r rs

theorem mostRecentActive_spec {db : Db} {u : String} {a : SubRow}
    (h : mostRecentActive db u = some a) :
    a ∈ db.subs ∧ a.user_id = u ∧ a.status = "active" := by
  unfold mostRecentActive at h
  have hm := List.mem_filter.mp (pickMaxStart_mem h)
  have hb := hm.2
  simp only [Bool.and_eq_true, beq_iff_eq] at hb
  exact ⟨hm.1, hb.1, hb.2⟩

theorem mostRecentActiveBySub_spec {db : Db} {sid : String} {a : SubRow}
    (h : mostRecentActiveBySub db sid = some a) :
    a ∈ db.subs ∧ a.stripe_subscription_id = sid ∧ a.status = "active" := by
  unfold mostRecentActiveBySub at h
  have hm := List.mem_filter.mp (pickMaxStart_mem h)
  have hb := hm.2
  simp only [Bool.and_eq_true, beq_iff_eq] at hb
  exact ⟨hm.1, hb.1, hb.2⟩

theorem completeRow_id (a r : SubRow) : (completeRow a r).id = r.id := by
  unfold completeRow; split <;> rfl

theorem completeRow_subId (a r : SubRow) :
    (completeRow a r).stripe_subscription_id = r.stripe_subscription_id := by
  unfold completeRow; split <;> rfl

theorem completeRow_start (a r : SubRow) : (completeRow a r).start_date = r.start_date := by
  unfold completeRow; split <;> rfl

theorem completeRow_status_self (a r : SubRow) (h : r.id = a.id) :
    (completeRow a r).status = "completed" := by
  unfold completeRow; rw [if_pos h]

theorem pairPred_completeRow (sid : String) (bs : Int) (a r : SubRow) :
    pairPred sid bs (completeRow a r) = pairPred sid bs r := by
  unfold pairPred
  rw [completeRow_subId, completeRow_start]

theorem markActive_nextId (db : Db) (uid : String) :
    (markActive db uid).nextId = db.nextId := by
  unfold markActive; split <;> rfl

theorem markActive_payments (db : Db) (uid : String) :
    (markActive db uid).payments = db.payments := by
  unfold markActive; split <;> rfl

theorem markActive_find?_pair_none (db : Db) (uid sid : String) (bs : Int)
    (h : db.subs.find? (pairPred sid bs) = none) :
    (markActive db uid).subs.find? (pairPred sid bs) = none := by
  unfold markActive
  cases hma : mostRecentActive db uid with
  | none => exact h
  | some a =>
    show (db.subs.map (completeRow a)).find? (pairPred sid bs) = none
    rw [List.find?_map]
    have hfun : (pairPred sid bs ∘ completeRow a) = pairPred sid bs := by
      funext r; exact pairPred_completeRow sid bs a r
    rw [hfun, h]
    rfl

theorem utcMinus3Ms_le_iff {e s : Nat} : utcMinus3Ms e ≤ utcMinus3Ms s ↔ e ≤ s := by
  unfold utcMinus3Ms utcMinus3OffsetSeconds
  omega

/-! ### Concrete fixtures used by witnesses, counterexamples and scenarios -/

/-- An environment in which every provider call fails or yields nothing. -/
def envNone : StripeEnv :=
  { retrieveSub := fun _ => none
    customerUserId := fun _ => none
    customerMetaUserId := fun _ => none
    nowSec := 0
    nowMs := 0 }

/-- The empty datastore. -/
def emptyDb : Db := { subs := [], payments := [], nextId := 0 }

/-- The spec's scenario payload: `sub_1`/`cus_1`, active, period
1700000000..1702678400, customer metadata resolving to `u1`. -/
def payloadBase : StripeSub :=
  { id := "sub_1"
    customer := "cus_1"
    status := some "active"
    metadataUserId := some "u1"
    metadataSupabaseUserId := none
    items := []
    current_period_start := some 1700000000
    current_period_end := some 1702678400
    start_date := none
    trial_end := none
    canceled_at := none }

example : (upsertSubscription envNone payloadBase none emptyDb).1 =
    some { id := 0, user_id := "u1", stripe_customer_id := "cus_1",
           stripe_subscription_id := "sub_1", status := "active",
           plan_name := "monthly", start_date := utcMinus3Ms 1700000000,
           end_date := some (utcMinus3Ms 1702678400), canceled_date := none } := by
  decide

example : utcMinus3Ms 1700000000 = 1699989200000 := by decide

/-! ### Further fixtures -/

/-- An environment whose customer-metadata lookup resolves `cus_1` to `u1`. -/
def envCus : StripeEnv :=
  { envNone with customerUserId := fun c => if c = "cus_1" then some "u1" else none }

/-- A paid provider invoice for `cus_1`. -/
def invPaid : StripeInvoice :=
  { id := "in_1"
    customer := "cus_1"
    payment_intent := some "pi_1"
    status := "paid"
    amount_paid := 999
    created := 1700000000
    subscription := none }

/-- A payload carrying no user metadata at all (unresolvable against an
empty table and an empty environment). -/
def payloadNoMeta : StripeSub :=
  { payloadBase with metadataUserId := none, metadataSupabaseUserId := none }

/-- An active local row for `sub_1` / `u1`. -/
def rowActive : SubRow :=
  { id := 0
    user_id := "u1"
    stripe_customer_id := "cus_1"
    stripe_subscription_id := "sub_1"
    status := "active"
    plan_name := "monthly"
    start_date := utcMinus3Ms 1700000000
    end_date := some (utcMinus3Ms 1702678400)
    canceled_date := none }

/-- A datastore holding exactly the one active row. -/
def dbOneActive : Db := { subs := [rowActive], payments := [], nextId := 1 }

/-- A provider subscription for the cancellation fixtures: canceled at
1702000000 with the period running to 1702678400. -/
def fullCanceled : StripeSub :=
  { payloadBase with status := some "canceled", canceled_at := some 1702000000 }

/-- An environment that successfully re-fetches `sub_1`. -/
def envRet : StripeEnv :=
  { envNone with retrieveSub := fun s => if s = "sub_1" then some fullCanceled else none }

/-- An event of a type the dispatcher does not recognize. -/
def evOther : StripeEvent := { type := "some.other.event", obj := .other }

/-! ### Claim theorems -/

/-- Claim C5: if no local `active` row exists for the provider subscription
id, `cancelSubscriptionSB` is a no-op returning `null` with the datastore
untouched; when one exists (and the re-fetch and user resolution succeed),
only the most recent active row — which indeed has status `active` — is
updated to `canceled` with the computed cancellation and end dates, every
other row passing through unchanged. -/
theorem cancel_noop_or_targets_most_recent
    (env : StripeEnv) (sid : String) (userId : Option String) (db : Db) :
    (mostRecentActiveBySub db sid = none →
      cancelSubscriptionSB env sid userId db = (none, db)) ∧
    (∀ full u a,
      env.retrieveSub sid = some full →
      cancelResolveUser env full userId db = some u →
      mostRecentActiveBySub db sid = some a →
      a.status = "active" ∧
      (cancelSubscriptionSB env sid userId db).1 =
        some { a with status := "canceled",
                      canceled_date := some (cancelCanceledMs env full),
                      end_date := some (cancelEndMs env full) } ∧
      (cancelSubscriptionSB env sid userId db).2.subs =
        db.subs.map (fun r =>
          if r.id = a.id then
            { r with status := "canceled",
                     canceled_date := some (cancelCanceledMs env full),
                     end_date := some (cancelEndMs env full) }
          else r) ∧
      (∀ r ∈ db.subs, r.id ≠ a.id → r ∈ (cancelSubscriptionSB env sid userId db).2.subs)) := by
  constructor
  · intro h
    cases hr : env.retrieveSub sid with
    | none => simp [cancelSubscriptionSB, hr]
    | some full =>
      cases hu : cancelResolveUser env full userId db with
      | none => simp [cancelSubscriptionSB, hr, hu]
      | some u => simp [cancelSubscriptionSB, hr, hu, h]
  · intro full u a hr hu ha
    have hspec := mostRecentActiveBySub_spec ha
    refine ⟨hspec.2.2, ?_, ?_, ?_⟩
    · simp [cancelSubscriptionSB, hr, hu, ha]
    · simp [cancelSubscriptionSB, hr, hu, ha]
    · intro r hrm hne
      have heq : (cancelSubscriptionSB env sid userId db).2.subs =
          db.subs.map (fun r =>
            if r.id = a.id then
              { r with status := "canceled",
                       canceled_date := some (cancelCanceledMs env full),
                       end_date := some (cancelEndMs env full) }
            else r) := by
        simp [cancelSubscriptionSB, hr, hu, ha]
      rw [heq]
      refine List.mem_map.mpr ⟨r, hrm, ?_⟩
      exact if_neg hne

/-- Witness for C5 at concrete inputs: a missing subscription id is a
no-op, and cancelling `sub_1` flips exactly the one active row. -/
theorem cancel_noop_or_targets_most_recent_witness :
    cancelSubscriptionSB envRet "sub_0" (some "u1") dbOneActive = (none, dbOneActive) ∧
    (cancelSubscriptionSB envRet "sub_1" (some "u1") dbOneActive).1 =
      some { rowActive with
               status := "canceled",
               canceled_date := some (cancelCanceledMs envRet fullCanceled),
               end_date := some (cancelEndMs envRet fullCanceled) } :=
  ⟨(cancel_noop_or_targets_most_recent envRet "sub_0" (some "u1") dbOneActive).1 (by decide),
   (((cancel_noop_or_targets_most_recent envRet "sub_1" (some "u1") dbOneActive).2
      fullCanceled "u1" rowActive (by decide) (by decide) (by decide)).2.1)⟩

/-- Claim C6: the webhook endpoint acknowledges exactly the verified
events: signature failure yields the 400 response with the datastore
untouched and no branch run; any verified event — whatever its type and
whatever its branch does, including throwing — yields the success
acknowledgment; and the dispatcher leaves the datastore unchanged on
unrecognized event types. -/
theorem webhook_ack_iff_verified
    (branch : StripeEvent → Db → Except String Unit × Db) (db : Db)
    (ev : StripeEvent) (env : StripeEnv) :
    handleWebhook none branch db = (WebhookResponse.badRequest, db) ∧
    (handleWebhook (some ev) branch db).1 = WebhookResponse.received ∧
    (ev.type ∉ handledTypes → dispatchEvent env ev db = db) := by
  refine ⟨rfl, rfl, ?_⟩
  intro h
  simp only [handledTypes, List.mem_cons, List.not_mem_nil, or_false, not_or] at h
  obtain ⟨h1, h2, h3, h4, h5, h6⟩ := h
  simp [dispatchEvent, h1, h2, h3, h4, h5, h6]

/-- Witness for C6 at concrete inputs, with the concrete dispatcher as the
branch and an unrecognized event type. -/
theorem webhook_ack_iff_verified_witness :
    handleWebhook none (stripeDispatch envNone) emptyDb = (WebhookResponse.badRequest, emptyDb) ∧
    (handleWebhook (some evOther) (stripeDispatch envNone) emptyDb).1 = WebhookResponse.received ∧
    dispatchEvent envNone evOther emptyDb = emptyDb :=
  ⟨(webhook_ack_iff_verified (stripeDispatch envNone) emptyDb evOther envNone).1,
   (webhook_ack_iff_verified (stripeDispatch envNone) emptyDb evOther envNone).2.1,
   (webhook_ack_iff_verified (stripeDispatch envNone) emptyDb evOther envNone).2.2 (by decide)⟩

/-- Claim C7: the recorded payment row's status is exactly the invoice
classification: `paid` to `completed`, `open` to `pending`,
`uncollectible`/`void` to `failed`, anything else `pending`. -/
theorem recordPayment_status_mapping
    (env : StripeEnv) (inv : StripeInvoice) (sid : Option Nat) (db : Db) (u : String)
    (hu : recordResolveUser env inv db = some u) :
    ∃ r, (recordPayment env inv sid db).1 = some r ∧
      (recordPayment env inv sid db).2.payments = db.payments ++ [r] ∧
      r.payment_status =
        (if inv.status = "paid" then "completed"
         else if inv.status = "open" then "pending"
         else if inv.status = "uncollectible" ∨ inv.status = "void" then "failed"
         else "pending") := by
  refine ⟨newPayRow inv u sid db.nextId, ?_, ?_, rfl⟩ <;>
    simp [recordPayment, hu]

/-- Witness for C7: the paid invoice for `cus_1` records a `completed`
payment. -/
theorem recordPayment_status_mapping_witness :
    recordResolveUser envCus invPaid emptyDb = some "u1" ∧
    (∃ r, (recordPayment envCus invPaid none emptyDb).1 = some r ∧
      (recordPayment envCus invPaid none emptyDb).2.payments = emptyDb.payments ++ [r] ∧
      r.payment_status =
        (if invPaid.status = "paid" then "completed"
         else if invPaid.status = "open" then "pending"
         else if invPaid.status = "uncollectible" ∨ invPaid.status = "void" then "failed"
         else "pending")) :=
  ⟨by decide, recordPayment_status_mapping envCus invPaid none emptyDb "u1" (by decide)⟩

/-- Single successful step of `recordPayment`, spelled out. -/
theorem recordPayment_step
    (env : StripeEnv) (inv : StripeInvoice) (sid : Option Nat) (db : Db) (u : String)
    (hu : recordResolveUser env inv db = some u) :
    recordPayment env inv sid db =
      (some (newPayRow inv u sid db.nextId),
       { db with payments := db.payments ++ [newPayRow inv u sid db.nextId],
                 nextId := db.nextId + 1 }) := by
  simp [recordPayment, hu]

/-- Claim C8: `recordPayment` always inserts and never updates; recording
the same invoice twice appends two rows carrying the same provider payment
identifier but distinct primary keys. -/
theorem recordPayment_always_inserts
    (env : StripeEnv) (inv : StripeInvoice) (sid : Option Nat) (db : Db) (u : String)
    (hu : recordResolveUser env inv db = some u) :
    ∃ r1 r2,
      (recordPayment env inv sid db).2.payments = db.payments ++ [r1] ∧
      (recordPayment env inv sid ((recordPayment env inv sid db).2)).2.payments
        = db.payments ++ [r1, r2] ∧
      r1.stripe_payment_id = r2.stripe_payment_id ∧
      r1.id ≠ r2.id := by
  have h1 := recordPayment_step env inv sid db u hu
  have hu2 : recordResolveUser env inv ((recordPayment env inv sid db).2) = some u := by
    rw [h1]
    exact hu
  have h2 := recordPayment_step env inv sid ((recordPayment env inv sid db).2) u hu2
  refine ⟨newPayRow inv u sid db.nextId, newPayRow inv u sid (db.nextId + 1), ?_, ?_, rfl, ?_⟩
  · rw [h1]
  · rw [h2, h1]
    simp
  · simp [newPayRow]

/-- Witness for C8: two recordings of the same paid invoice append two
rows. -/
theorem recordPayment_always_inserts_witness :
    recordResolveUser envCus invPaid emptyDb = some "u1" ∧
    (∃ r1 r2,
      (recordPayment envCus invPaid none emptyDb).2.payments = emptyDb.payments ++ [r1] ∧
      (recordPayment envCus invPaid none ((recordPayment envCus invPaid none emptyDb).2)).2.payments
        = emptyDb.payments ++ [r1, r2] ∧
      r1.stripe_payment_id = r2.stripe_payment_id ∧
      r1.id ≠ r2.id) :=
  ⟨by decide, recordPayment_always_inserts envCus invPaid none emptyDb "u1" (by decide)⟩

/-- Claim C9: when no user id can be resolved, both the reconciler and the
payment recorder return `null` and leave the datastore untouched. -/
theorem unresolved_user_no_write
    (env : StripeEnv) (payload : StripeSub) (userId : Option String)
    (inv : StripeInvoice) (sid : Option Nat) (db : Db) :
    (resolveUpsertUser env (effectiveSub env payload) userId db = none →
      upsertSubscription env payload userId db = (none, db)) ∧
    (recordResolveUser env inv db = none →
      recordPayment env inv sid db = (none, db)) := by
  constructor
  · intro h
    simp [upsertSubscription, h]
  · intro h
    simp [recordPayment, h]

/-- Witness for C9: with no metadata, an empty environment and an empty
table, both operations are no-ops returning `null`. -/
theorem unresolved_user_no_write_witness :
    upsertSubscription envNone payloadNoMeta none emptyDb = (none, emptyDb) ∧
    recordPayment envNone invPaid none emptyDb = (none, emptyDb) :=
  ⟨(unresolved_user_no_write envNone payloadNoMeta none invPaid none emptyDb).1 (by decide),
   (unresolved_user_no_write envNone payloadNoMeta none invPaid none emptyDb).2 (by decide)⟩

/-- Claim C10: if the provider-side re-fetch throws inside the
cancellation path, `cancelSubscriptionSB` returns `null` immediately and
writes nothing. -/
theorem cancel_retrieve_failure_noop
    (env : StripeEnv) (sid : String) (userId : Option String) (db : Db)
    (h : env.retrieveSub sid = none) :
    cancelSubscriptionSB env sid userId db = (none, db) := by
  simp [cancelSubscriptionSB, h]

/-- Witness for C10: the always-failing environment makes cancellation a
silent no-op even though an active row exists. -/
theorem cancel_retrieve_failure_noop_witness :
    envNone.retrieveSub "sub_1" = none ∧
    cancelSubscriptionSB envNone "sub_1" (some "u1") dbOneActive = (none, dbOneActive) :=
  ⟨rfl, cancel_retrieve_failure_noop envNone "sub_1" (some "u1") dbOneActive rfl⟩

/-- A stale local row for `sub_1` whose period start matches the payload
but whose stored `end_date` does not match the payload's period end. -/
def rowStale : SubRow :=
  { id := 0
    user_id := "u1"
    stripe_customer_id := "cus_1"
    stripe_subscription_id := "sub_1"
    status := "completed"
    plan_name := "monthly"
    start_date := utcMinus3Ms 1700000000
    end_date := some 999
    canceled_date := none }

/-- A datastore holding only the stale row. -/
def dbStale : Db := { subs := [rowStale], payments := [], nextId := 1 }

/-- The base payload with every end-date source removed. -/
def payloadNoEnd : StripeSub := { payloadBase with current_period_end := none }

/-- Single successful insert step of `upsertSubscription`: when the user
resolves and no row exists for (subscription id, computed start_date), the
function inserts and returns the freshly built row. -/
theorem upsert_insert_step
    (env : StripeEnv) (payload : StripeSub) (userId : Option String) (db : Db) (u : String)
    (hu : resolveUpsertUser env (effectiveSub env payload) userId db = some u)
    (hdup : db.subs.find? (pairPred (effectiveSub env payload).id
              (utcMinus3Ms (derivedStartSec env (effectiveSub env payload)))) = none) :
    (upsertSubscription env payload userId db).1 =
      some (newSubRow (effectiveSub env payload) u
        (utcMinus3Ms (derivedStartSec env (effectiveSub env payload)))
        (finalEndMs env (effectiveSub env payload)) db.nextId) ∧
    (upsertSubscription env payload userId db).2.subs =
      (markActive db u).subs ++
        [newSubRow (effectiveSub env payload) u
          (utcMinus3Ms (derivedStartSec env (effectiveSub env payload)))
          (finalEndMs env (effectiveSub env payload)) db.nextId] := by
  have hd1 := markActive_find?_pair_none db u (effectiveSub env payload).id
    (utcMinus3Ms (derivedStartSec env (effectiveSub env payload))) hdup
  constructor <;> simp [upsertSubscription, hu, hd1, markActive_nextId]

/-- Claim C1 (amended): for a provider subscription object whose
current_period_end strictly exceeds its current_period_start, the
reconciler's freshly inserted row carries exactly the two shifted period
boundaries — provided no row already exists for (subscription id, shifted
start); when such a row exists it is returned with its stored boundaries
unchanged. -/
theorem upsert_insert_shifted_period_dates
    (env : StripeEnv) (payload : StripeSub) (userId : Option String) (db : Db)
    (u : String) (s e : Nat)
    (hu : resolveUpsertUser env (effectiveSub env payload) userId db = some u)
    (hs : (effectiveSub env payload).current_period_start = some s)
    (he : (effectiveSub env payload).current_period_end = some e)
    (hlt : s < e)
    (hdup : db.subs.find? (pairPred (effectiveSub env payload).id (utcMinus3Ms s)) = none) :
    ∃ r, (upsertSubscription env payload userId db).1 = some r ∧
      r.start_date = utcMinus3Ms s ∧
      r.end_date = some (utcMinus3Ms e) ∧
      r ∈ (upsertSubscription env payload userId db).2.subs := by
  have hds : derivedStartSec env (effectiveSub env payload) = s := by
    simp [derivedStartSec, hs]
  have hde : derivedEndSec (effectiveSub env payload) = some e := by
    simp [derivedEndSec, he]
  have hfe : finalEndMs env (effectiveSub env payload) = utcMinus3Ms e := by
    unfold finalEndMs
    rw [hde, hds]
    have he0 : ¬(e = 0) := by omega
    have hnle : ¬(utcMinus3Ms e ≤ utcMinus3Ms s) := by
      rw [utcMinus3Ms_le_iff]
      omega
    simp [he0, hnle]
  have hdup2 : db.subs.find? (pairPred (effectiveSub env payload).id
      (utcMinus3Ms (derivedStartSec env (effectiveSub env payload)))) = none := by
    rw [hds]
    exact hdup
  have hstep := upsert_insert_step env payload userId db u hu hdup2
  refine ⟨_, hstep.1, ?_, ?_, ?_⟩
  · simp [newSubRow, hds]
  · simp [newSubRow, hfe]
  · rw [hstep.2]
    exact List.mem_append.mpr (Or.inr (List.mem_singleton.mpr rfl))

/-- Witness for the amended C1 at the spec's scenario inputs. -/
theorem upsert_insert_shifted_period_dates_witness :
    ∃ r, (upsertSubscription envNone payloadBase none emptyDb).1 = some r ∧
      r.start_date = utcMinus3Ms 1700000000 ∧
      r.end_date = some (utcMinus3Ms 1702678400) ∧
      r ∈ (upsertSubscription envNone payloadBase none emptyDb).2.subs :=
  upsert_insert_shifted_period_dates envNone payloadBase none emptyDb "u1"
    1700000000 1702678400 (by decide) (by decide) (by decide) (by decide) (by decide)

/-- Counterexample to C1 as stated: with `current_period_end` strictly
after `current_period_start`, the reconciler reuses the stale row for the
same (subscription id, start_date) pair and returns `end_date` 999 rather
than the shifted period end. -/
theorem upsert_shifted_end_counterexample :
    payloadBase.current_period_start = some 1700000000 ∧
    payloadBase.current_period_end = some 1702678400 ∧
    (1700000000 : Nat) < 1702678400 ∧
    ((upsertSubscription envNone payloadBase (some "u1") dbStale).1.map (·.end_date))
      = some (some 999) ∧
    some (999 : Int) ≠ some (utcMinus3Ms 1702678400) := by
  decide

/-- Claim C4 (amended): when the derived end is missing or not strictly
after the derived start, the freshly inserted row's `end_date` is exactly
`start_date + 1 day` — provided no row already exists for (subscription
id, computed start_date); when such a row exists it is returned with its
stored boundaries unchanged. -/
theorem upsert_insert_end_floor
    (env : StripeEnv) (payload : StripeSub) (userId : Option String) (db : Db) (u : String)
    (hu : resolveUpsertUser env (effectiveSub env payload) userId db = some u)
    (hend : ∀ e, derivedEndSec (effectiveSub env payload) = some e →
      e ≤ derivedStartSec env (effectiveSub env payload))
    (hdup : db.subs.find? (pairPred (effectiveSub env payload).id
      (utcMinus3Ms (derivedStartSec env (effectiveSub env payload)))) = none) :
    ∃ r, (upsertSubscription env payload userId db).1 = some r ∧
      r.start_date = utcMinus3Ms (derivedStartSec env (effectiveSub env payload)) ∧
      r.end_date = some (r.start_date + dayMs) ∧
      r ∈ (upsertSubscription env payload userId db).2.subs := by
  have hfe : finalEndMs env (effectiveSub env payload)
      = utcMinus3Ms (derivedStartSec env (effectiveSub env payload)) + dayMs := by
    unfold finalEndMs
    cases hd : derivedEndSec (effectiveSub env payload) with
    | none => simp
    | some e =>
      have hle := hend e hd
      by_cases h0 : e = 0
      · simp [h0]
      · have : utcMinus3Ms e ≤ utcMinus3Ms (derivedStartSec env (effectiveSub env payload)) :=
          utcMinus3Ms_le_iff.mpr hle
        simp [h0, this]
  have hstep := upsert_insert_step env payload userId db u hu hdup
  refine ⟨_, hstep.1, ?_, ?_, ?_⟩
  · simp [newSubRow]
  · simp [newSubRow, hfe]
  · rw [hstep.2]
    exact List.mem_append.mpr (Or.inr (List.mem_singleton.mpr rfl))

/-- Witness for the amended C4: no end-date source at all yields
`end_date = start_date + 1 day` on the inserted row. -/
theorem upsert_insert_end_floor_witness :
    ∃ r, (upsertSubscription envNone payloadNoEnd none emptyDb).1 = some r ∧
      r.start_date = utcMinus3Ms (derivedStartSec envNone (effectiveSub envNone payloadNoEnd)) ∧
      r.end_date = some (r.start_date + dayMs) ∧
      r ∈ (upsertSubscription envNone payloadNoEnd none emptyDb).2.subs :=
  upsert_insert_end_floor envNone payloadNoEnd none emptyDb "u1" (by decide)
    (by intro e h; simp [derivedEndSec, payloadNoEnd, payloadBase, effectiveSub, envNone] at h)
    (by decide)

/-- Counterexample to C4 as stated: with the derived end absent, the
reconciler reuses the stale row for the same (subscription id, start_date)
pair and returns `end_date` 999 rather than `start_date + 1 day`. -/
theorem upsert_end_floor_counterexample :
    derivedEndSec (effectiveSub envNone payloadNoEnd) = none ∧
    ((upsertSubscription envNone payloadNoEnd (some "u1") dbStale).1.map (·.end_date))
      = some (some 999) ∧
    ((upsertSubscription envNone payloadNoEnd (some "u1") dbStale).1.map (·.start_date))
      = some (utcMinus3Ms 1700000000) ∧
    some (999 : Int) ≠ some (utcMinus3Ms 1700000000 + dayMs) := by
  decide

/-- In a list with pairwise-distinct ids, a member's id selects exactly
one row. -/
theorem filter_id_singleton {l : List SubRow} {a : SubRow}
    (hmem : a ∈ l) (hnd : (l.map (·.id)).Nodup) :
    (l.filter (fun r => r.id == a.id)).length = 1 := by
  induction l with
  | nil => cases hmem
  | cons x xs ih =>
    rw [List.map_cons, List.nodup_cons] at hnd
    obtain ⟨hx, hnd2⟩ := hnd
    rcases List.mem_cons.mp hmem with h | hmem2
    · subst h
      rw [List.filter_cons, if_pos (beq_self_eq_true a.id)]
      have hnil : xs.filter (fun r => r.id == a.id) = [] := by
        rw [List.filter_eq_nil_iff]
        intro r hr hbeq
        rw [beq_iff_eq] at hbeq
        exact hx (hbeq ▸ List.mem_map_of_mem (·.id) hr)
      rw [hnil]
      rfl
    · have hxa : ¬(x.id == a.id) = true := by
        rw [beq_iff_eq]
        intro hcontra
        exact hx (hcontra ▸ List.mem_map_of_mem (·.id) hmem2)
      rw [List.filter_cons, if_neg hxa]
      exact ih hmem2 hnd2

/-- A renewal payload: same subscription, next billing period. -/
def payloadRenewal : StripeSub :=
  { payloadBase with
      current_period_start := some 1702678400
      current_period_end := some 1705356800 }

/-- Claim C2 (amended): whenever the resolved user has an active row, the
reconciler unconditionally marks that row (and exactly that row, its id
being unique) `completed`, fixing its `end_date` to its own stored
boundary; a new row is appended iff no row already exists for
(subscription id, computed start_date) — so on a genuine rollover exactly
one prior row is completed and exactly one new row inserted, while a
same-period reconciliation still flips the active row to `completed`. -/
theorem upsert_active_always_completed
    (env : StripeEnv) (payload : StripeSub) (userId : Option String) (db : Db)
    (u : String) (a : SubRow)
    (hu : resolveUpsertUser env (effectiveSub env payload) userId db = some u)
    (ha : mostRecentActive db u = some a)
    (hfresh : ∀ r ∈ db.subs, r.id < db.nextId)
    (hnodup : (db.subs.map (·.id)).Nodup) :
    (upsertSubscription env payload userId db).2.subs =
      db.subs.map (completeRow a) ++
        (if ((db.subs.map (completeRow a)).find? (pairPred (effectiveSub env payload).id
              (utcMinus3Ms (derivedStartSec env (effectiveSub env payload))))).isSome
         then []
         else [newSubRow (effectiveSub env payload) u
                (utcMinus3Ms (derivedStartSec env (effectiveSub env payload)))
                (finalEndMs env (effectiveSub env payload)) db.nextId]) ∧
    (∀ r ∈ (upsertSubscription env payload userId db).2.subs,
      r.id = a.id → r.status = "completed") ∧
    ((upsertSubscription env payload userId db).2.subs.filter
      (fun r => r.id == a.id)).length = 1 := by
  have hmem := (mostRecentActive_spec ha).1
  have hma : markActive db u = { db with subs := db.subs.map (completeRow a) } := by
    unfold markActive
    rw [ha]
  have hane : db.nextId ≠ a.id := by
    have := hfresh a hmem
    omega
  have key : (upsertSubscription env payload userId db).2.subs =
      db.subs.map (completeRow a) ++
        (if ((db.subs.map (completeRow a)).find? (pairPred (effectiveSub env payload).id
              (utcMinus3Ms (derivedStartSec env (effectiveSub env payload))))).isSome
         then []
         else [newSubRow (effectiveSub env payload) u
                (utcMinus3Ms (derivedStartSec env (effectiveSub env payload)))
                (finalEndMs env (effectiveSub env payload)) db.nextId]) := by
    cases hf : ((db.subs.map (completeRow a)).find? (pairPred (effectiveSub env payload).id
        (utcMinus3Ms (derivedStartSec env (effectiveSub env payload))))) with
    | none => simp [upsertSubscription, hu, hma, hf]
    | some dup => simp [upsertSubscription, hu, hma, hf]
  refine ⟨key, ?_, ?_⟩
  · intro r hr hid
    rw [key] at hr
    rcases List.mem_append.mp hr with hl | hrt
    · obtain ⟨x, _, rfl⟩ := List.mem_map.mp hl
      have hxid : x.id = a.id := by
        rw [← completeRow_id a x]
        exact hid
      exact completeRow_status_self a x hxid
    · by_cases hsome : ((db.subs.map (completeRow a)).find?
          (pairPred (effectiveSub env payload).id
            (utcMinus3Ms (derivedStartSec env (effectiveSub env payload))))).isSome
      · rw [if_pos hsome] at hrt
        cases hrt
      · rw [if_neg hsome] at hrt
        rw [List.mem_singleton] at hrt
        subst hrt
        exact absurd hid hane
  · rw [key, List.filter_append, List.length_append]
    have hcm : ((db.subs.map (completeRow a)).filter (fun r => r.id == a.id)).length
        = (db.subs.filter (fun r => r.id == a.id)).length := by
      rw [← List.countP_eq_length_filter, ← List.countP_eq_length_filter, List.countP_map]
      congr 1
      funext r
      simp [completeRow_id]
    have hone := filter_id_singleton hmem hnodup
    have htail : ((if ((db.subs.map (completeRow a)).find?
          (pairPred (effectiveSub env payload).id
            (utcMinus3Ms (derivedStartSec env (effectiveSub env payload))))).isSome
        then ([] : List SubRow)
        else [newSubRow (effectiveSub env payload) u
              (utcMinus3Ms (derivedStartSec env (effectiveSub env payload)))
              (finalEndMs env (effectiveSub env payload)) db.nextId]).filter
        (fun r => r.id == a.id)).length = 0 := by
      split
      · rfl
      · have : ((newSubRow (effectiveSub env payload) u
            (utcMinus3Ms (derivedStartSec env (effectiveSub env payload)))
            (finalEndMs env (effectiveSub env payload)) db.nextId).id == a.id) = false := by
          simp [newSubRow]
          exact hane
        simp [List.filter_cons, this]
    rw [hcm, hone, htail]

/-- Witness for the amended C2: the rollover of `rowActive` to the renewal
period leaves exactly one row with the old id, now `completed`. -/
theorem upsert_active_always_completed_witness :
    ((upsertSubscription envNone payloadRenewal (some "u1") dbOneActive).2.subs.filter
      (fun r => r.id == rowActive.id)).length = 1 ∧
    (∀ r ∈ (upsertSubscription envNone payloadRenewal (some "u1") dbOneActive).2.subs,
      r.id = rowActive.id → r.status = "completed") :=
  ⟨(upsert_active_always_completed envNone payloadRenewal (some "u1") dbOneActive
      "u1" rowActive (by decide) (by decide) (by decide) (by decide)).2.2,
   (upsert_active_always_completed envNone payloadRenewal (some "u1") dbOneActive
      "u1" rowActive (by decide) (by decide) (by decide) (by decide)).2.1⟩

/-- Counterexample to C2 as stated: reconciling the *same* period while an
active row exists still flips that row to `completed` (and inserts
nothing), instead of leaving its status untouched. -/
theorem upsert_same_period_counterexample :
    rowActive.status = "active" ∧
    rowActive.start_date = utcMinus3Ms (derivedStartSec envNone (effectiveSub envNone payloadBase)) ∧
    ((upsertSubscription envNone payloadBase (some "u1") dbOneActive).2.subs.map (·.status))
      = ["completed"] ∧
    ("completed" : String) ≠ "active" ∧
    (upsertSubscription envNone payloadBase (some "u1") dbOneActive).2.subs.length
      = dbOneActive.subs.length := by
  decide

/-- Two rows do not duplicate a (provider subscription id, start_date)
pair. -/
def PairRel (r1 r2 : SubRow) : Prop :=
  ¬(r1.stripe_subscription_id = r2.stripe_subscription_id ∧ r1.start_date = r2.start_date)

instance (r1 r2 : SubRow) : Decidable (PairRel r1 r2) := by
  unfold PairRel
  infer_instance

/-- The table invariant: no two rows share a (provider subscription id,
start_date) pair. -/
def PairUnique (db : Db) : Prop := db.subs.Pairwise PairRel

/-- The rollover step changes only status and end_date, so it preserves
the pair invariant. -/
theorem pairUnique_markActive (db : Db) (uid : String) (h : PairUnique db) :
    PairUnique (markActive db uid) := by
  unfold markActive
  cases hma : mostRecentActive db uid with
  | none => exact h
  | some a =>
    show List.Pairwise PairRel (db.subs.map (completeRow a))
    rw [List.pairwise_map]
    refine h.imp ?_
    intro x y hxy
    unfold PairRel at *
    rw [completeRow_subId, completeRow_subId, completeRow_start, completeRow_start]
    exact hxy

/-- The reconciler preserves the pair invariant: it inserts only after the
duplicate-period guard found no row with the same pair. -/
theorem pairUnique_upsert (env : StripeEnv) (payload : StripeSub)
    (userId : Option String) (db : Db) (h : PairUnique db) :
    PairUnique (upsertSubscription env payload userId db).2 := by
  cases hu : resolveUpsertUser env (effectiveSub env payload) userId db with
  | none =>
    have : upsertSubscription env payload userId db = (none, db) := by
      simp [upsertSubscription, hu]
    rw [this]
    exact h
  | some u =>
    have hm := pairUnique_markActive db u h
    cases hf : (markActive db u).subs.find? (pairPred (effectiveSub env payload).id
        (utcMinus3Ms (derivedStartSec env (effectiveSub env payload)))) with
    | some dup =>
      have : (upsertSubscription env payload userId db).2 = markActive db u := by
        simp [upsertSubscription, hu, hf]
      rw [this]
      exact hm
    | none =>
      have hsubs : (upsertSubscription env payload userId db).2.subs =
          (markActive db u).subs ++
            [newSubRow (effectiveSub env payload) u
              (utcMinus3Ms (derivedStartSec env (effectiveSub env payload)))
              (finalEndMs env (effectiveSub env payload)) (markActive db u).nextId] := by
        simp [upsertSubscription, hu, hf]
      unfold PairUnique
      rw [hsubs, List.pairwise_append]
      refine ⟨hm, List.pairwise_singleton _ _, ?_⟩
      intro x hx y hy
      rw [List.mem_singleton] at hy
      subst hy
      have hnp := List.find?_eq_none.mp hf x hx
      unfold PairRel
      intro hpair
      apply hnp
      unfold pairPred
      rw [Bool.and_eq_true, beq_iff_eq, beq_iff_eq]
      exact ⟨hpair.1, hpair.2⟩

/-- Claim C3: the table never carries two rows with the same (provider
subscription id, start_date) pair: the invariant is preserved by any
reconciliation and hence by reconciling the same provider object twice. -/
theorem upsert_pair_unique
    (env : StripeEnv) (payload : StripeSub) (userId : Option String) (db : Db)
    (h : PairUnique db) :
    PairUnique (upsertSubscription env payload userId db).2 ∧
    PairUnique ((upsertSubscription env payload userId
      ((upsertSubscription env payload userId db).2)).2) :=
  ⟨pairUnique_upsert env payload userId db h,
   pairUnique_upsert env payload userId _ (pairUnique_upsert env payload userId db h)⟩

/-- Witness for C3: two reconciliations of the same payload from the empty
table keep the pair invariant. -/
theorem upsert_pair_unique_witness :
    PairUnique (upsertSubscription envNone payloadBase none emptyDb).2 ∧
    PairUnique ((upsertSubscription envNone payloadBase none
      ((upsertSubscription envNone payloadBase none emptyDb).2)).2) :=
  upsert_pair_unique envNone payloadBase none emptyDb List.Pairwise.nil
